import Mathlib

/-!
Verification of the `spotify_data_manipulation` package: a shallow embedding of
`spotify_client.py` (SpotifyClient, its resource handlers, `send_request`,
`retrieve_access_token`, `get_item`) and `spotify_storage.py` (StorageService
with `add_item`, `get_all_items`, `get_item_by_id`, `update_item`,
`delete_by_id`).

Modelling choices:
* JSON/Python values are modelled to the depth the code inspects them: the code
  only ever reads one level of a dict (`spotify_item.get('id')`,
  `response['access_token']`), so an object is a flat association list from
  field names to primitive values (`null` or a string).  Python `None` is
  `JPrim.null`.
* The HTTP transport is a parameter `net : HttpRequest → HttpResponse` mapping
  the prepared request (method, url, headers, form data, timeout passed to
  `Session.send`) to the received response with its parsed JSON body.
* Python exceptions are an explicit error channel `Except PyError`.
  `PyError.httpError` is `requests.HTTPError` as raised by
  `Response.raise_for_status` (statuses 400–599); `PyError.keyError` is
  `KeyError`; `PyError.typeError` is `TypeError` from subscripting a
  non-dict.  `PyError.authenticationError` models the dedicated
  `AuthenticationError` of the specification error taxonomy; no code path of
  the source produces it, it exists so that statements about it can be made.
* A Python `dict` is an association list with unique keys kept in insertion
  order (assignment to an existing key keeps its position, a new key is
  appended, `pop` removes the entry), matching CPython dict semantics.
-/

set_option autoImplicit false

/-- A primitive JSON/Python value as far as the code inspects it:
Python `None` (JSON null) or a string. -/
inductive JPrim where
  | null : JPrim
  | str (s : String) : JPrim
deriving DecidableEq

/-- A flat JSON object / Python dict: field name to primitive value. -/
abbrev Item := List (String × JPrim)

/-- A JSON value: a primitive or an object. -/
inductive JVal where
  | prim (p : JPrim) : JVal
  | obj (item : Item) : JVal
deriving DecidableEq

/-- `true` exactly on object (dict) values. -/
def JVal.isObj : JVal → Bool
  | JVal.obj _ => true
  | JVal.prim _ => false

/-- Python exceptions relevant to this code base. -/
inductive PyError where
  | httpError (status : Nat) : PyError
  | keyError (key : String) : PyError
  | typeError : PyError
  | authenticationError : PyError
deriving DecidableEq

/-- First binding of `field` in an object, if any (dict membership + access). -/
def itemLookup : Item → String → Option JPrim
  | [], _ => Option.none
  | (k, v) :: rest, field => if k = field then Option.some v else itemLookup rest field

/-- Python `dict.get(field)`: the stored value, or `None` when the field is
absent.  An explicitly stored JSON null also comes back as `None`, so the two
cases are indistinguishable to the caller, exactly as in Python. -/
def itemGet (it : Item) (field : String) : JPrim :=
  (itemLookup it field).getD JPrim.null

/-- Python `value[field]` (subscript): the field of a dict, `KeyError` when the
field is absent, `TypeError` when the value is not a dict. -/
def subscript (v : JVal) (field : String) : Except PyError JVal :=
  match v with
  | JVal.obj it =>
      match itemLookup it field with
      | Option.some p => Except.ok (JVal.prim p)
      | Option.none => Except.error (PyError.keyError field)
  | JVal.prim _ => Except.error PyError.typeError

/-- UTF-8 encoding of one character (Python `str.encode()` per character). -/
def charUtf8 (c : Char) : List Nat :=
  let n := c.toNat
  if n < 128 then [n]
  else if n < 2048 then [192 + n / 64, 128 + n % 64]
  else if n < 65536 then [224 + n / 4096, 128 + (n / 64) % 64, 128 + n % 64]
  else [240 + n / 262144, 128 + (n / 4096) % 64, 128 + (n / 64) % 64, 128 + n % 64]

/-- UTF-8 bytes of a string (Python `str.encode()`). -/
def utf8Bytes (s : String) : List Nat :=
  (s.toList.map charUtf8).flatten

/-- The standard base64 alphabet. -/
def b64chars : List Char :=
  "ABCDEFGHIJKLMNOPQRSTUVWXYZabcdefghijklmnopqrstuvwxyz0123456789+/".toList

/-- The base64 character for a 6-bit group. -/
def b64char (n : Nat) : Char := b64chars.getD n '='

/-- Python `base64.b64encode` on a byte sequence, producing the padded
base64 text. -/
def b64encode : List Nat → String
  | [] => ""
  | [b1] =>
      String.mk [b64char (b1 / 4), b64char (b1 % 4 * 16), '=', '=']
  | [b1, b2] =>
      String.mk [b64char (b1 / 4), b64char (b1 % 4 * 16 + b2 / 16),
        b64char (b2 % 16 * 4), '=']
  | b1 :: b2 :: b3 :: rest =>
      String.mk [b64char (b1 / 4), b64char (b1 % 4 * 16 + b2 / 16),
        b64char (b2 % 16 * 4 + b3 / 64), b64char (b3 % 64)] ++ b64encode rest

/-- The prepared request `Session.send` transmits: `requests.Request(method=,
url=, data=, headers=)` plus the timeout argument of `send` (the source passes
none). -/
structure HttpRequest where
  method : String
  url : String
  headers : List (String × String)
  request_data : Option (List (String × String))
  timeout : Option Nat
deriving DecidableEq

/-- A received response: status code and parsed JSON body. -/
structure HttpResponse where
  status_code : Nat
  body : JVal
deriving DecidableEq

/-- The transport: what response the network returns for a prepared request. -/
abbrev Net := HttpRequest → HttpResponse

/-- `SpotifyClient.send_request`: prepares `Request(method, url, data, headers)`
and sends it with `session.send(prepped)` (no timeout argument), then calls
`response.raise_for_status()` — which raises `HTTPError` exactly when
`400 ≤ status_code < 600` — and returns `response.json()`. -/
def send_request (net : Net) (method url : String) (headers : List (String × String))
    (request_data : Option (List (String × String))) : Except PyError JVal :=
  let response : HttpResponse :=
    net (HttpRequest.mk method url headers request_data Option.none)
  if 400 ≤ response.status_code ∧ response.status_code < 600 then
    Except.error (PyError.httpError response.status_code)
  else
    Except.ok response.body

/-- `SpotifyClient.retrieve_access_token`: base64-encodes
`"{client_id}:{client_secret}"`, POSTs to the token endpoint with the Basic
header and form body `grant_type=client_credentials`, and returns
`response['access_token']` of the JSON body. -/
def retrieve_access_token (net : Net) (client_id client_secret : String) :
    Except PyError JVal :=
  let encoded : String := b64encode (utf8Bytes (client_id ++ ":" ++ client_secret))
  match send_request net "post" "https://accounts.spotify.com/api/token"
      [("Authorization", "Basic " ++ encoded)]
      (Option.some [("grant_type", "client_credentials")]) with
  | Except.error e => Except.error e
  | Except.ok response => subscript response "access_token"

/-- The state of a constructed `SpotifyClient`: the access token it holds. -/
structure SpotifyClient where
  access_token : String
deriving DecidableEq

/-- The class attribute `SpotifyClient.spotify_url`. -/
def SpotifyClient.spotify_url : String := "https://api.spotify.com/v1"

/-- `SpotifyClient.get_item`: GET `{spotify_url}/{endpoint}` with header
`Authorization: Bearer {access_token}` and no request data. -/
def SpotifyClient.get_item (net : Net) (self : SpotifyClient) (endpoint : String) :
    Except PyError JVal :=
  send_request net "get" (SpotifyClient.spotify_url ++ "/" ++ endpoint)
    [("Authorization", "Bearer " ++ self.access_token)] Option.none

/-- The prepared request `get_item` hands to the transport. -/
def get_item_request (access_token endpoint : String) : HttpRequest :=
  HttpRequest.mk "get" (SpotifyClient.spotify_url ++ "/" ++ endpoint)
    [("Authorization", "Bearer " ++ access_token)] Option.none Option.none

/-- The prepared request `retrieve_access_token` hands to the transport. -/
def token_request (client_id client_secret : String) : HttpRequest :=
  HttpRequest.mk "post" "https://accounts.spotify.com/api/token"
    [("Authorization", "Basic " ++
      b64encode (utf8Bytes (client_id ++ ":" ++ client_secret)))]
    (Option.some [("grant_type", "client_credentials")]) Option.none

/-- `SpotifyTrackHandler`: holds the client it was constructed with. -/
structure SpotifyTrackHandler where
  spotify_client : SpotifyClient
deriving DecidableEq

/-- `SpotifyTrackHandler.get_track`: `spotify_client.get_item('tracks/{id}')`. -/
def SpotifyTrackHandler.get_track (net : Net) (self : SpotifyTrackHandler)
    (track_id : String) : Except PyError JVal :=
  self.spotify_client.get_item net ("tracks/" ++ track_id)

/-- `SpotifyArtistHandler`: holds the client it was constructed with. -/
structure SpotifyArtistHandler where
  spotify_client : SpotifyClient
deriving DecidableEq

/-- `SpotifyArtistHandler.get_artist`: `spotify_client.get_item('artists/{id}')`. -/
def SpotifyArtistHandler.get_artist (net : Net) (self : SpotifyArtistHandler)
    (artist_id : String) : Except PyError JVal :=
  self.spotify_client.get_item net ("artists/" ++ artist_id)

/-- `SpotifyAlbumHandler`: holds the client it was constructed with. -/
structure SpotifyAlbumHandler where
  spotify_client : SpotifyClient
deriving DecidableEq

/-- `SpotifyAlbumHandler.get_album`: `spotify_client.get_item('albums/{id}')`. -/
def SpotifyAlbumHandler.get_album (net : Net) (self : SpotifyAlbumHandler)
    (album_id : String) : Except PyError JVal :=
  self.spotify_client.get_item net ("albums/" ++ album_id)

/-- Specification-side accessor, in the words of the spec:
`getTrack(id) = getItem("tracks/{id}")`. -/
def spec_get_track (net : Net) (client : SpotifyClient) (track_id : String) :
    Except PyError JVal :=
  client.get_item net ("tracks/" ++ track_id)

/-- Specification-side accessor, in the words of the spec:
`getArtist(id) = getItem("artists/{id}")`. -/
def spec_get_artist (net : Net) (client : SpotifyClient) (artist_id : String) :
    Except PyError JVal :=
  client.get_item net ("artists/" ++ artist_id)

/-- Specification-side accessor, in the words of the spec:
`getAlbum(id) = getItem("albums/{id}")`. -/
def spec_get_album (net : Net) (client : SpotifyClient) (album_id : String) :
    Except PyError JVal :=
  client.get_item net ("albums/" ++ album_id)

/-- Lookup in a Python dict keyed by primitive values. -/
def dictGet : List (JPrim × JVal) → JPrim → Option JVal
  | [], _ => Option.none
  | (k, v) :: rest, key => if k = key then Option.some v else dictGet rest key

/-- Python dict assignment `d[key] = v`: replaces the value in place when the
key exists (keeping its insertion position), appends a new entry otherwise. -/
def dictSet : List (JPrim × JVal) → JPrim → JVal → List (JPrim × JVal)
  | [], key, v => [(key, v)]
  | (k, w) :: rest, key, v =>
      if k = key then (k, v) :: rest else (k, w) :: dictSet rest key v

/-- Python `dict.pop(key)`: removes the entry with the given key. -/
def dictPop : List (JPrim × JVal) → JPrim → List (JPrim × JVal)
  | [], _ => []
  | (k, w) :: rest, key => if k = key then rest else (k, w) :: dictPop rest key

/-- Python `dict.values()` as a list, in insertion order. -/
def dictValues (d : List (JPrim × JVal)) : List JVal :=
  d.map Prod.snd

/-- The `StorageService` state: its `_storage` dict. -/
structure StorageService where
  _storage : List (JPrim × JVal)
deriving DecidableEq

/-- `StorageService.__init__`: the empty storage. -/
def StorageService.init : StorageService := StorageService.mk []

/-- `StorageService.add_item`: `self._storage[spotify_item.get('id')] =
spotify_item; return spotify_item`.  Never raises: an absent or null `id`
silently becomes the key `None`. -/
def StorageService.add_item (self : StorageService) (spotify_item : Item) :
    Item × StorageService :=
  (spotify_item,
    StorageService.mk
      (dictSet self._storage (itemGet spotify_item "id") (JVal.obj spotify_item)))

/-- `StorageService.get_all_items`: `list(self._storage.values())`. -/
def StorageService.get_all_items (self : StorageService) : List JVal :=
  dictValues self._storage

/-- `StorageService.get_item_by_id`: the stored value when `key in
self._storage`, otherwise raises `KeyError`. -/
def StorageService.get_item_by_id (self : StorageService) (key : String) :
    Except PyError JVal :=
  match dictGet self._storage (JPrim.str key) with
  | Option.some v => Except.ok v
  | Option.none => Except.error (PyError.keyError key)

/-- `StorageService.update_item`: reads `self._storage.get(key)` (with default
`None`) and, when that value `is not None`, overwrites the entry and returns
the new item; otherwise raises `KeyError`. -/
def StorageService.update_item (self : StorageService) (spotify_item : Item)
    (key : String) : Except PyError (Item × StorageService) :=
  let old_spotify_item : JVal :=
    (dictGet self._storage (JPrim.str key)).getD (JVal.prim JPrim.null)
  if old_spotify_item ≠ JVal.prim JPrim.null then
    Except.ok (spotify_item,
      StorageService.mk (dictSet self._storage (JPrim.str key) (JVal.obj spotify_item)))
  else
    Except.error (PyError.keyError key)

/-- `StorageService.delete_by_id`: pops the entry when `key in self._storage`,
otherwise raises `KeyError`. -/
def StorageService.delete_by_id (self : StorageService) (key : String) :
    Except PyError StorageService :=
  if (dictGet self._storage (JPrim.str key)).isSome then
    Except.ok (StorageService.mk (dictPop self._storage (JPrim.str key)))
  else
    Except.error (PyError.keyError key)

/-- `true` exactly on successful results. -/
def exceptOk {α : Type} (e : Except PyError α) : Bool :=
  match e with
  | Except.ok _ => true
  | Except.error _ => false

/-- The storage value invariant: every stored value is a dict (an item object),
hence in particular not `None`. -/
def StorageService.values_ok (self : StorageService) : Prop :=
  ∀ p ∈ self._storage, JVal.isObj p.2 = true

/-- The dict model invariant: keys are pairwise distinct, as in a Python dict. -/
def StorageService.keys_nodup (self : StorageService) : Prop :=
  (self._storage.map Prod.fst).Nodup

/-! ### Dict model lemmas -/

theorem send_request_eq (net : Net) (method url : String)
    (headers : List (String × String))
    (request_data : Option (List (String × String))) :
    send_request net method url headers request_data =
      (if 400 ≤ (net (HttpRequest.mk method url headers request_data Option.none)).status_code ∧
          (net (HttpRequest.mk method url headers request_data Option.none)).status_code < 600 then
        Except.error (PyError.httpError
          (net (HttpRequest.mk method url headers request_data Option.none)).status_code)
      else
        Except.ok (net (HttpRequest.mk method url headers request_data Option.none)).body) :=
  rfl

theorem retrieve_access_token_eq (net : Net) (client_id client_secret : String) :
    retrieve_access_token net client_id client_secret =
      (if 400 ≤ (net (token_request client_id client_secret)).status_code ∧
          (net (token_request client_id client_secret)).status_code < 600 then
        Except.error (PyError.httpError
          (net (token_request client_id client_secret)).status_code)
      else
        subscript (net (token_request client_id client_secret)).body "access_token") := by
  simp only [retrieve_access_token, send_request, token_request]
  split_ifs with h <;> rfl

theorem get_item_eq (net : Net) (c : SpotifyClient) (endpoint : String) :
    SpotifyClient.get_item net c endpoint =
      (if 400 ≤ (net (get_item_request c.access_token endpoint)).status_code ∧
          (net (get_item_request c.access_token endpoint)).status_code < 600 then
        Except.error (PyError.httpError
          (net (get_item_request c.access_token endpoint)).status_code)
      else
        Except.ok (net (get_item_request c.access_token endpoint)).body) :=
  rfl

theorem mem_dictSet {d : List (JPrim × JVal)} {key : JPrim} {v : JVal}
    {p : JPrim × JVal} :
    p ∈ dictSet d key v → p ∈ d ∨ p = (key, v) := by
  induction d with
  | nil =>
      intro hp
      simp [dictSet] at hp
      exact Or.inr hp
  | cons q rest ih =>
      obtain ⟨k, w⟩ := q
      intro hp
      simp only [dictSet] at hp
      split at hp
      · rename_i h
        rcases List.mem_cons.mp hp with h1 | h1
        · exact Or.inr (by rw [h1, h])
        · exact Or.inl (List.mem_cons_of_mem _ h1)
      · rcases List.mem_cons.mp hp with h1 | h1
        · exact Or.inl (by rw [h1]; exact List.mem_cons_self _ _)
        · rcases ih h1 with h2 | h2
          · exact Or.inl (List.mem_cons_of_mem _ h2)
          · exact Or.inr h2

theorem mem_dictPop {d : List (JPrim × JVal)} {key : JPrim} {p : JPrim × JVal} :
    p ∈ dictPop d key → p ∈ d := by
  induction d with
  | nil => intro hp; simp [dictPop] at hp
  | cons q rest ih =>
      obtain ⟨k, w⟩ := q
      intro hp
      simp only [dictPop] at hp
      split at hp
      · exact List.mem_cons_of_mem _ hp
      · rcases List.mem_cons.mp hp with h1 | h1
        · exact h1 ▸ List.mem_cons_self _ _
        · exact List.mem_cons_of_mem _ (ih h1)

theorem mem_of_dictGet {d : List (JPrim × JVal)} {key : JPrim} {v : JVal} :
    dictGet d key = Option.some v → (key, v) ∈ d := by
  induction d with
  | nil => intro h; simp [dictGet] at h
  | cons q rest ih =>
      obtain ⟨k, w⟩ := q
      intro h
      simp only [dictGet] at h
      split at h
      · rename_i hk
        cases h
        rw [← hk]
        exact List.mem_cons_self _ _
      · exact List.mem_cons_of_mem _ (ih h)

theorem dictGet_dictSet_self (d : List (JPrim × JVal)) (key : JPrim) (v : JVal) :
    dictGet (dictSet d key v) key = Option.some v := by
  induction d with
  | nil => simp [dictSet, dictGet]
  | cons q rest ih =>
      obtain ⟨k, w⟩ := q
      by_cases h : k = key
      · simp [dictSet, dictGet, h]
      · simp [dictSet, dictGet, h, ih]

theorem dictSet_fresh {d : List (JPrim × JVal)} {key : JPrim} (v : JVal)
    (h : dictGet d key = Option.none) : dictSet d key v = d ++ [(key, v)] := by
  induction d with
  | nil => simp [dictSet]
  | cons q rest ih =>
      obtain ⟨k, w⟩ := q
      simp only [dictGet] at h
      split at h
      · simp at h
      · rename_i hk
        simp [dictSet, hk, ih h]

theorem dictGet_eq_none_of_not_mem {d : List (JPrim × JVal)} {key : JPrim}
    (h : key ∉ d.map Prod.fst) : dictGet d key = Option.none := by
  induction d with
  | nil => rfl
  | cons q rest ih =>
      obtain ⟨k, w⟩ := q
      simp only [List.map_cons, List.mem_cons] at h
      push_neg at h
      simp only [dictGet, if_neg (Ne.symm h.1)]
      exact ih h.2

theorem dictGet_dictPop_self {d : List (JPrim × JVal)} {key : JPrim}
    (hd : (d.map Prod.fst).Nodup) :
    dictGet (dictPop d key) key = Option.none := by
  induction d with
  | nil => rfl
  | cons q rest ih =>
      obtain ⟨k, w⟩ := q
      simp only [List.map_cons, List.nodup_cons] at hd
      by_cases h : k = key
      · simp only [dictPop, if_pos h]
        subst h
        exact dictGet_eq_none_of_not_mem hd.1
      · simp only [dictPop, if_neg h, dictGet, if_neg h]
        exact ih hd.2

theorem get_item_by_id_of_some {s : StorageService} {key : String} {v : JVal}
    (h : dictGet s._storage (JPrim.str key) = Option.some v) :
    StorageService.get_item_by_id s key = Except.ok v := by
  unfold StorageService.get_item_by_id
  rw [h]

theorem get_item_by_id_of_none {s : StorageService} {key : String}
    (h : dictGet s._storage (JPrim.str key) = Option.none) :
    StorageService.get_item_by_id s key = Except.error (PyError.keyError key) := by
  unfold StorageService.get_item_by_id
  rw [h]

/-! ### Demonstration transports and stores used by closed statements -/

/-- A transport whose final response is `304 Not Modified` with a string body. -/
def net_304 : Net := fun _ => HttpResponse.mk 304 (JVal.prim (JPrim.str "redirected"))

/-- A transport that answers every request with status 404. -/
def net_404 : Net := fun _ => HttpResponse.mk 404 (JVal.obj [("error", JPrim.str "not found")])

/-- A transport that answers every request with status 400. -/
def net_400 : Net :=
  fun _ => HttpResponse.mk 400 (JVal.obj [("error", JPrim.str "invalid_client")])

/-- A transport that answers with status 200 and a token body. -/
def net_token_ok : Net :=
  fun _ => HttpResponse.mk 200 (JVal.obj [("access_token", JPrim.str "T")])

/-- A store holding one item under key `"1"`. -/
def demo_store : StorageService :=
  StorageService.mk
    [(JPrim.str "1", JVal.obj [("id", JPrim.str "1"), ("name", JPrim.str "a")])]

/-! ### Claim theorems -/

/-- Claim C1, counterexample to the claim as stated: the status 304 is not 2xx,
yet `get_item` returns the response body as a successful value instead of
failing — `raise_for_status` only raises for statuses 400–599. -/
theorem C1_counterexample :
    (¬ (200 ≤ 304 ∧ 304 ≤ 299)) ∧
    (net_304 (get_item_request "T" "albums/zzz")).status_code = 304 ∧
    SpotifyClient.get_item net_304 (SpotifyClient.mk "T") "albums/zzz" =
      Except.ok (JVal.prim (JPrim.str "redirected")) :=
  ⟨by decide, rfl, rfl⟩

/-- Claim C1 (amended): for every endpoint, `get_item` issues a GET to
`{spotify_url}/{endpoint}` (`spotify_url = https://api.spotify.com/v1`) with
header `Authorization: Bearer <token>`; it fails with `HTTPError{status}`
exactly when the response status is 4xx or 5xx (so in particular a 404 fails
with status 404 and is never returned as a value), and on every other status it
returns the parsed body. -/
theorem C1_get_item_spec (net : Net) (token endpoint : String) :
    (get_item_request token endpoint).method = "get" ∧
    (get_item_request token endpoint).url =
      SpotifyClient.spotify_url ++ "/" ++ endpoint ∧
    SpotifyClient.spotify_url = "https://api.spotify.com/v1" ∧
    (get_item_request token endpoint).headers =
      [("Authorization", "Bearer " ++ token)] ∧
    (∀ s : Nat, (net (get_item_request token endpoint)).status_code = s →
      (400 ≤ s ∧ s < 600 →
        SpotifyClient.get_item net (SpotifyClient.mk token) endpoint =
          Except.error (PyError.httpError s)) ∧
      (¬ (400 ≤ s ∧ s < 600) →
        SpotifyClient.get_item net (SpotifyClient.mk token) endpoint =
          Except.ok (net (get_item_request token endpoint)).body)) := by
  refine ⟨rfl, rfl, rfl, rfl, ?_⟩
  intro s hs
  subst hs
  constructor
  · intro hr
    rw [get_item_eq, if_pos hr]
  · intro hr
    rw [get_item_eq, if_neg hr]

/-- Claim C1 witness: a 404 answer to `getAlbum`-style access fails with
`HTTPError{404}`. -/
theorem C1_witness :
    SpotifyClient.get_item net_404 (SpotifyClient.mk "T") "albums/zzz" =
      Except.error (PyError.httpError 404) :=
  ((C1_get_item_spec net_404 "T" "albums/zzz").2.2.2.2 404 rfl).1 (by decide)

/-- Claim C2, counterexample to the claim as stated, at client id `"a"` and
secret `"b"`: the prepared token request carries no timeout (the source passes
none to `Session.send`), not the claimed 30 time-units; and a 400 answer makes
`retrieve_access_token` fail with the transport error `HTTPError{400}`, not
with the dedicated `AuthenticationError`. -/
theorem C2_counterexample :
    (token_request "a" "b").timeout = Option.none ∧
    (Option.none : Option Nat) ≠ Option.some 30 ∧
    (net_400 (token_request "a" "b")).status_code = 400 ∧
    retrieve_access_token net_400 "a" "b" = Except.error (PyError.httpError 400) ∧
    (Except.error (PyError.httpError 400) : Except PyError JVal) ≠
      Except.error PyError.authenticationError :=
  ⟨rfl, by decide, rfl, by rw [retrieve_access_token_eq]; rfl,
    fun h => PyError.noConfusion (Except.error.inj h)⟩

/-- Claim C2 (amended): `retrieve_access_token` builds the HTTP Basic
credential by base64-encoding the UTF-8 bytes of `"{client_id}:{client_secret}"`
and issues a POST to `https://accounts.spotify.com/api/token` with header
`Authorization: Basic <encoded>` and form body `grant_type=client_credentials`,
but with no timeout; on a 4xx/5xx response it fails with the underlying
`HTTPError{status}` (the source defines no `AuthenticationError`), and on every
other status — in particular 200 — it returns the `access_token` field of the
parsed JSON body (a `KeyError` if the field is absent). -/
theorem C2_retrieve_spec (net : Net) (client_id client_secret : String) :
    (token_request client_id client_secret).method = "post" ∧
    (token_request client_id client_secret).url =
      "https://accounts.spotify.com/api/token" ∧
    (token_request client_id client_secret).headers =
      [("Authorization", "Basic " ++
        b64encode (utf8Bytes (client_id ++ ":" ++ client_secret)))] ∧
    (token_request client_id client_secret).request_data =
      Option.some [("grant_type", "client_credentials")] ∧
    (token_request client_id client_secret).timeout = Option.none ∧
    (∀ s : Nat, (net (token_request client_id client_secret)).status_code = s →
      (400 ≤ s ∧ s < 600 →
        retrieve_access_token net client_id client_secret =
          Except.error (PyError.httpError s)) ∧
      (¬ (400 ≤ s ∧ s < 600) →
        retrieve_access_token net client_id client_secret =
          subscript (net (token_request client_id client_secret)).body
            "access_token")) := by
  refine ⟨rfl, rfl, rfl, rfl, rfl, ?_⟩
  intro s hs
  subst hs
  constructor
  · intro hr
    rw [retrieve_access_token_eq, if_pos hr]
  · intro hr
    rw [retrieve_access_token_eq, if_neg hr]

/-- Claim C2 witness: with a 200 response carrying `access_token = "T"`, the
token retrieval returns `"T"`. -/
theorem C2_witness :
    retrieve_access_token net_token_ok "my-id" "my-secret" =
      Except.ok (JVal.prim (JPrim.str "T")) := by
  have h :=
    ((C2_retrieve_spec net_token_ok "my-id" "my-secret").2.2.2.2.2 200 rfl).2
      (by decide)
  rw [h]
  rfl

/-- Claim C3: the code evaluated at the failing inputs.  `add_item` of an item
with an absent `id` field, and of an item with an explicitly null `id`, raises
nothing (its result type has no error channel at all): it silently stores the
item under the key `None` and returns the item, instead of failing with
`InvalidItemError` as the claim requires. -/
theorem C3_add_item_null_key :
    StorageService.add_item StorageService.init [("name", JPrim.str "a")] =
      ([("name", JPrim.str "a")],
        StorageService.mk [(JPrim.null, JVal.obj [("name", JPrim.str "a")])]) ∧
    StorageService.add_item StorageService.init
        [("id", JPrim.null), ("name", JPrim.str "a")] =
      ([("id", JPrim.null), ("name", JPrim.str "a")],
        StorageService.mk
          [(JPrim.null, JVal.obj [("id", JPrim.null), ("name", JPrim.str "a")])]) :=
  ⟨rfl, rfl⟩

/-- Claim C9: each resource handler is pure delegation to the generic fetch:
`get_track id = get_item ("tracks/" ++ id)`, `get_artist id =
get_item ("artists/" ++ id)`, `get_album id = get_item ("albums/" ++ id)`, and
a handler carries no state beyond the client it wraps. -/
theorem C9_handlers_delegate (net : Net) (c : SpotifyClient) (i : String) :
    SpotifyTrackHandler.get_track net (SpotifyTrackHandler.mk c) i =
      spec_get_track net c i ∧
    SpotifyArtistHandler.get_artist net (SpotifyArtistHandler.mk c) i =
      spec_get_artist net c i ∧
    SpotifyAlbumHandler.get_album net (SpotifyAlbumHandler.mk c) i =
      spec_get_album net c i ∧
    (∀ h : SpotifyTrackHandler, h = SpotifyTrackHandler.mk h.spotify_client) ∧
    (∀ h : SpotifyArtistHandler, h = SpotifyArtistHandler.mk h.spotify_client) ∧
    (∀ h : SpotifyAlbumHandler, h = SpotifyAlbumHandler.mk h.spotify_client) :=
  ⟨rfl, rfl, rfl, fun _ => rfl, fun _ => rfl, fun _ => rfl⟩

/-- Claim C4: for every item whose `id` field is the string `k`, `add_item`
followed by `get_item_by_id k` returns that same item; and adding a second
item under the same `id` overwrites the first (last write wins). -/
theorem C4_add_then_get (s : StorageService) (it it2 : Item) (k : String)
    (h1 : itemGet it "id" = JPrim.str k) (h2 : itemGet it2 "id" = JPrim.str k) :
    StorageService.get_item_by_id (StorageService.add_item s it).2 k =
      Except.ok (JVal.obj it) ∧
    StorageService.get_item_by_id
        (StorageService.add_item (StorageService.add_item s it).2 it2).2 k =
      Except.ok (JVal.obj it2) := by
  constructor
  · apply get_item_by_id_of_some
    show dictGet (dictSet s._storage (itemGet it "id") (JVal.obj it))
        (JPrim.str k) = Option.some (JVal.obj it)
    rw [h1]
    exact dictGet_dictSet_self _ _ _
  · apply get_item_by_id_of_some
    show dictGet
        (dictSet (dictSet s._storage (itemGet it "id") (JVal.obj it))
          (itemGet it2 "id") (JVal.obj it2)) (JPrim.str k) =
      Option.some (JVal.obj it2)
    rw [h2]
    exact dictGet_dictSet_self _ _ _

/-- Claim C4 witness: adding `{id:"1", name:"a"}` and then `{id:"1",
name:"b"}` to the empty store, `get_item_by_id "1"` returns the second item. -/
theorem C4_witness :
    StorageService.get_item_by_id
        (StorageService.add_item
          (StorageService.add_item StorageService.init
            [("id", JPrim.str "1"), ("name", JPrim.str "a")]).2
          [("id", JPrim.str "1"), ("name", JPrim.str "b")]).2 "1" =
      Except.ok (JVal.obj [("id", JPrim.str "1"), ("name", JPrim.str "b")]) :=
  (C4_add_then_get StorageService.init
    [("id", JPrim.str "1"), ("name", JPrim.str "a")]
    [("id", JPrim.str "1"), ("name", JPrim.str "b")] "1"
    (by decide) (by decide)).2

/-- Claim C5: on a store whose values are all item objects (the invariant every
reachable store satisfies, see the claim on invariants), `update_item it k`
succeeds when `k` is present — overwriting the entry with `it` without any
check that `it.id = k`, so that a subsequent lookup returns `it` — and fails
with `KeyError` when `k` is absent. -/
theorem C5_update_item (s : StorageService) (it : Item) (k : String)
    (hv : StorageService.values_ok s) :
    ((dictGet s._storage (JPrim.str k)).isSome →
      StorageService.update_item s it k =
        Except.ok (it,
          StorageService.mk (dictSet s._storage (JPrim.str k) (JVal.obj it))) ∧
      StorageService.get_item_by_id
          (StorageService.mk (dictSet s._storage (JPrim.str k) (JVal.obj it))) k =
        Except.ok (JVal.obj it)) ∧
    (dictGet s._storage (JPrim.str k) = Option.none →
      StorageService.update_item s it k = Except.error (PyError.keyError k)) := by
  constructor
  · intro hsome
    obtain ⟨v, hveq⟩ := Option.isSome_iff_exists.mp hsome
    have hobj : JVal.isObj v = true := hv _ (mem_of_dictGet hveq)
    have hne : v ≠ JVal.prim JPrim.null := by
      intro hcon
      rw [hcon] at hobj
      simp [JVal.isObj] at hobj
    constructor
    · simp only [StorageService.update_item, hveq, Option.getD_some]
      rw [if_pos hne]
    · exact get_item_by_id_of_some (dictGet_dictSet_self _ _ _)
  · intro hnone
    simp only [StorageService.update_item, hnone, Option.getD_none]
    rw [if_neg (by simp)]

/-- Claim C5 witness: updating key `"1"` in a store holding it succeeds and
replaces the value; updating the absent key `"9"` fails with `KeyError`. -/
theorem C5_witness :
    StorageService.update_item demo_store
        [("id", JPrim.str "1"), ("name", JPrim.str "b")] "1" =
      Except.ok ([("id", JPrim.str "1"), ("name", JPrim.str "b")],
        StorageService.mk
          [(JPrim.str "1",
            JVal.obj [("id", JPrim.str "1"), ("name", JPrim.str "b")])]) ∧
    StorageService.update_item demo_store
        [("id", JPrim.str "1"), ("name", JPrim.str "b")] "9" =
      Except.error (PyError.keyError "9") := by
  have hv : StorageService.values_ok demo_store := by
    unfold StorageService.values_ok
    decide
  have h := C5_update_item demo_store
    [("id", JPrim.str "1"), ("name", JPrim.str "b")] "1" hv
  have h9 := C5_update_item demo_store
    [("id", JPrim.str "1"), ("name", JPrim.str "b")] "9" hv
  exact ⟨(h.1 (by decide)).1, h9.2 (by decide)⟩

/-- Claim C6: `get_item_by_id` returns the stored entry when the key is
present and fails with `KeyError` when the key is absent; on an absent key it
never returns any value at all (no error-string sentinel). -/
theorem C6_get_item_by_id (s : StorageService) (k : String) :
    (∀ v : JVal, dictGet s._storage (JPrim.str k) = Option.some v →
      StorageService.get_item_by_id s k = Except.ok v) ∧
    (dictGet s._storage (JPrim.str k) = Option.none →
      StorageService.get_item_by_id s k = Except.error (PyError.keyError k) ∧
      ∀ v : JVal, StorageService.get_item_by_id s k ≠ Except.ok v) := by
  constructor
  · intro v hveq
    exact get_item_by_id_of_some hveq
  · intro hnone
    refine ⟨get_item_by_id_of_none hnone, ?_⟩
    intro v hcon
    rw [get_item_by_id_of_none hnone] at hcon
    exact Except.noConfusion hcon

/-- Claim C6 witness: in a store holding key `"1"` only, lookup of `"1"`
returns the stored item and lookup of `"2"` fails with `KeyError`. -/
theorem C6_witness :
    StorageService.get_item_by_id demo_store "1" =
      Except.ok (JVal.obj [("id", JPrim.str "1"), ("name", JPrim.str "a")]) ∧
    StorageService.get_item_by_id demo_store "2" =
      Except.error (PyError.keyError "2") :=
  ⟨(C6_get_item_by_id demo_store "1").1 _ (by rfl),
    ((C6_get_item_by_id demo_store "2").2 (by rfl)).1⟩

/-- Claim C7: on a store with pairwise-distinct keys (as in a Python dict),
`delete_by_id k` removes the entry when `k` is present — after which `k` is
absent and an immediately repeated `delete_by_id k` fails with `KeyError` —
and fails with `KeyError` when `k` is absent. -/
theorem C7_delete_by_id (s : StorageService) (k : String)
    (hnd : StorageService.keys_nodup s) :
    ((dictGet s._storage (JPrim.str k)).isSome →
      StorageService.delete_by_id s k =
        Except.ok (StorageService.mk (dictPop s._storage (JPrim.str k))) ∧
      dictGet (dictPop s._storage (JPrim.str k)) (JPrim.str k) = Option.none ∧
      StorageService.delete_by_id
          (StorageService.mk (dictPop s._storage (JPrim.str k))) k =
        Except.error (PyError.keyError k)) ∧
    (dictGet s._storage (JPrim.str k) = Option.none →
      StorageService.delete_by_id s k = Except.error (PyError.keyError k)) := by
  constructor
  · intro hsome
    have hgone : dictGet (dictPop s._storage (JPrim.str k)) (JPrim.str k) =
        Option.none := dictGet_dictPop_self hnd
    refine ⟨?_, hgone, ?_⟩
    · simp only [StorageService.delete_by_id, hsome, if_pos]
    · simp only [StorageService.delete_by_id, hgone, Option.isSome_none,
        Bool.false_eq_true, if_false]
  · intro hnone
    simp only [StorageService.delete_by_id, hnone, Option.isSome_none,
      Bool.false_eq_true, if_false]

/-- Claim C7 witness: deleting key `"1"` from a store holding only it empties
the store, and deleting `"1"` again fails with `KeyError`. -/
theorem C7_witness :
    StorageService.delete_by_id demo_store "1" =
      Except.ok (StorageService.mk []) ∧
    StorageService.delete_by_id (StorageService.mk []) "1" =
      Except.error (PyError.keyError "1") := by
  have hnd : StorageService.keys_nodup demo_store := by
    unfold StorageService.keys_nodup
    decide
  have h := (C7_delete_by_id demo_store "1" hnd).1 (by decide)
  exact ⟨h.1, h.2.2⟩

/-- Claim C8: `get_all_items` lists the stored values in insertion order:
adding an item under a fresh key appends its value to the listing, and after
adding items with ids `"1"` and `"2"` to the empty store the listing is
exactly the two values in the order they were added, of length 2. -/
theorem C8_get_all_items (it1 it2 : Item)
    (h1 : itemGet it1 "id" = JPrim.str "1")
    (h2 : itemGet it2 "id" = JPrim.str "2") :
    (∀ (s : StorageService) (it : Item),
      dictGet s._storage (itemGet it "id") = Option.none →
      StorageService.get_all_items (StorageService.add_item s it).2 =
        StorageService.get_all_items s ++ [JVal.obj it]) ∧
    StorageService.get_all_items
        (StorageService.add_item
          (StorageService.add_item StorageService.init it1).2 it2).2 =
      [JVal.obj it1, JVal.obj it2] ∧
    (StorageService.get_all_items
        (StorageService.add_item
          (StorageService.add_item StorageService.init it1).2 it2).2).length =
      2 := by
  have append : ∀ (s : StorageService) (it : Item),
      dictGet s._storage (itemGet it "id") = Option.none →
      StorageService.get_all_items (StorageService.add_item s it).2 =
        StorageService.get_all_items s ++ [JVal.obj it] := by
    intro s it hfresh
    show dictValues (dictSet s._storage (itemGet it "id") (JVal.obj it)) =
      dictValues s._storage ++ [JVal.obj it]
    rw [dictSet_fresh _ hfresh]
    simp [dictValues]
  have step1 : StorageService.get_all_items
      (StorageService.add_item StorageService.init it1).2 = [JVal.obj it1] := by
    rw [append StorageService.init it1 (by rw [h1]; rfl)]
    rfl
  have fresh2 : dictGet
      ((StorageService.add_item StorageService.init it1).2)._storage
      (itemGet it2 "id") = Option.none := by
    show dictGet (dictSet [] (itemGet it1 "id") (JVal.obj it1))
      (itemGet it2 "id") = Option.none
    rw [h1, h2]
    apply dictGet_eq_none_of_not_mem
    intro hmem
    simp only [dictSet, List.map_cons, List.map_nil, List.mem_singleton] at hmem
    exact absurd hmem (by decide)
  have step2 : StorageService.get_all_items
      (StorageService.add_item
        (StorageService.add_item StorageService.init it1).2 it2).2 =
      [JVal.obj it1, JVal.obj it2] := by
    rw [append _ it2 fresh2, step1]
    rfl
  exact ⟨append, step2, by rw [step2]; rfl⟩

/-- Claim C8 witness: adding `{id:"1", name:"a"}` then `{id:"2", name:"b"}` to
the empty store, `get_all_items` returns both values in insertion order. -/
theorem C8_witness :
    StorageService.get_all_items
        (StorageService.add_item
          (StorageService.add_item StorageService.init
            [("id", JPrim.str "1"), ("name", JPrim.str "a")]).2
          [("id", JPrim.str "2"), ("name", JPrim.str "b")]).2 =
      [JVal.obj [("id", JPrim.str "1"), ("name", JPrim.str "a")],
        JVal.obj [("id", JPrim.str "2"), ("name", JPrim.str "b")]] :=
  (C8_get_all_items
    [("id", JPrim.str "1"), ("name", JPrim.str "a")]
    [("id", JPrim.str "2"), ("name", JPrim.str "b")]
    (by decide) (by decide)).2.1

/-- Claim C10: every `StorageService` operation keeps the invariant that each
stored value is an item object — in particular never `None` — and under this
invariant the presence test of `update_item` (stored value `is not None`)
agrees exactly with key membership, so `update_item` succeeds exactly on
present keys. -/
theorem C10_values_invariant :
    StorageService.values_ok StorageService.init ∧
    (∀ (s : StorageService) (it : Item),
      StorageService.values_ok s →
      StorageService.values_ok (StorageService.add_item s it).2) ∧
    (∀ (s : StorageService) (it : Item) (k : String) (r : Item × StorageService),
      StorageService.values_ok s →
      StorageService.update_item s it k = Except.ok r →
      StorageService.values_ok r.2) ∧
    (∀ (s s2 : StorageService) (k : String),
      StorageService.values_ok s →
      StorageService.delete_by_id s k = Except.ok s2 →
      StorageService.values_ok s2) ∧
    (∀ s : StorageService, StorageService.values_ok s →
      ∀ p ∈ s._storage, p.2 ≠ JVal.prim JPrim.null) ∧
    (∀ (s : StorageService) (it : Item) (k : String),
      StorageService.values_ok s →
      exceptOk (StorageService.update_item s it k) =
        (dictGet s._storage (JPrim.str k)).isSome) := by
  refine ⟨?_, ?_, ?_, ?_, ?_, ?_⟩
  · intro p hp
    exact absurd hp (List.not_mem_nil p)
  · intro s it hv p hp
    rcases mem_dictSet hp with h | h
    · exact hv p h
    · rw [h]
      rfl
  · intro s it k r hv heq
    simp only [StorageService.update_item] at heq
    split at heq
    · cases heq
      intro p hp
      rcases mem_dictSet hp with h | h
      · exact hv p h
      · rw [h]
        rfl
    · exact Except.noConfusion heq
  · intro s s2 k hv heq
    simp only [StorageService.delete_by_id] at heq
    split at heq
    · cases heq
      intro p hp
      exact hv p (mem_dictPop hp)
    · exact Except.noConfusion heq
  · intro s hv p hp hcon
    have hobj := hv p hp
    rw [hcon] at hobj
    simp [JVal.isObj] at hobj
  · intro s it k hv
    cases hget : dictGet s._storage (JPrim.str k) with
    | none =>
        simp only [StorageService.update_item, hget, Option.getD_none,
          Option.isSome_none]
        rw [if_neg (by simp)]
        rfl
    | some v =>
        have hobj : JVal.isObj v = true := hv _ (mem_of_dictGet hget)
        have hne : v ≠ JVal.prim JPrim.null := by
          intro hcon
          rw [hcon] at hobj
          simp [JVal.isObj] at hobj
        simp only [StorageService.update_item, hget, Option.getD_some,
          Option.isSome_some]
        rw [if_pos hne]
        rfl

/-- Claim C10 witness: on a concrete reachable store, `update_item` fails on
the absent key `"9"` and succeeds on the present key `"1"`, matching key
membership exactly. -/
theorem C10_witness :
    exceptOk (StorageService.update_item demo_store [("id", JPrim.str "9")] "9") =
      false ∧
    exceptOk (StorageService.update_item demo_store [("id", JPrim.str "9")] "1") =
      true := by
  have hv : StorageService.values_ok demo_store := by
    unfold StorageService.values_ok
    decide
  constructor
  · rw [C10_values_invariant.2.2.2.2.2 demo_store [("id", JPrim.str "9")] "9" hv]
    decide
  · rw [C10_values_invariant.2.2.2.2.2 demo_store [("id", JPrim.str "9")] "1" hv]
    decide
